import Mathlib

/-!
# Verification of `futuristic-animations.js`

A shallow embedding of the decorative-animation controller
(`FuturisticAnimations`) of this repository, together with theorems about
its behaviour.  JS numbers are modelled as exact reals (geometry, element
styles) or rationals/naturals where the code only does exact arithmetic;
`Math.random()` is modelled as an explicit stream `rnd : ℕ → ℝ` of draws,
consumed in program order; DOM elements are modelled as records of the
style properties the code writes, and element identity (needed to speak
about "the connection for a pair of nodes") is modelled by carrying the
node indices that created an element.
-/

namespace FA

/-- A neural node as stored in `this.neuralNodes`: 2D percentage
coordinates.  (The DOM element's `animationDelay` is a third random draw,
consumed but not stored in the node record.) -/
structure Node where
  x : ℝ
  y : ℝ

instance : Inhabited Node := ⟨⟨0, 0⟩⟩

/-- JS `Math.atan2 y x` in exact real arithmetic. -/
noncomputable def atan2 (y x : ℝ) : ℝ :=
  if 0 < x then Real.arctan (y / x)
  else if x < 0 ∧ 0 ≤ y then Real.arctan (y / x) + Real.pi
  else if x < 0 ∧ y < 0 then Real.arctan (y / x) - Real.pi
  else if x = 0 ∧ 0 < y then Real.pi / 2
  else if x = 0 ∧ y < 0 then -(Real.pi / 2)
  else 0

/-- A `.neural-connection` element: the style properties
`createNeuralConnections` writes, plus the indices of the node pair that
created it (element identity). -/
structure Conn where
  src : ℕ
  dst : ℕ
  left : ℝ
  top : ℝ
  width : ℝ
  angle : ℝ

/-- The body of the inner loop of `createNeuralConnections`: for the pair
(`node`, `otherNode`) at indices `i < j`, create a connection element iff
the Euclidean distance is below 30. -/
noncomputable def connFor (node otherNode : Node) (i j : ℕ) : Option Conn :=
  let distance := Real.sqrt ((node.x - otherNode.x) ^ 2 + (node.y - otherNode.y) ^ 2)
  if distance < 30 then
    some { src := i, dst := j, left := node.x, top := node.y, width := distance,
           angle := atan2 (otherNode.y - node.y) (otherNode.x - node.x) }
  else none

/-- `createNeuralConnections`: the outer `forEach` runs over all indices,
the inner `forEach` over `this.neuralNodes.slice(index + 1)`, whose
element at slice position `k` is the node at index `index + 1 + k`. -/
noncomputable def createNeuralConnections (nodes : List Node) : List Conn :=
  (List.range nodes.length).flatMap fun index =>
    (List.range' (index + 1) (nodes.length - (index + 1))).filterMap fun j =>
      connFor (nodes.getD index default) (nodes.getD j default) index j

/-- A `.hex-shape` element: the style properties `createFloatingShapes`
writes. -/
structure Shape where
  left : ℝ
  top : ℝ
  animationDelay : ℝ
  animationDuration : ℝ

/-- `createFloatingShapes`: `shapeCount` shapes, four random draws per
iteration. -/
def createFloatingShapes (rnd : ℕ → ℝ) (innerWidth : ℕ) : List Shape :=
  let shapeCount := if innerWidth < 768 then 8 else 15
  (List.range shapeCount).map fun i =>
    { left := rnd (4 * i) * 100
      top := rnd (4 * i + 1) * 100
      animationDelay := rnd (4 * i + 2) * 8
      animationDuration := 8 + rnd (4 * i + 3) * 4 }

/-- A `.particle` element: the style properties `createParticle` writes. -/
structure Particle where
  left : ℝ
  animationDelay : ℝ
  animationDuration : ℝ

/-- `createParticle`, drawing its three randoms at positions `k`, `k+1`,
`k+2` of the stream.  `left` is in `vw` units. -/
def createParticle (rnd : ℕ → ℝ) (k : ℕ) : Particle :=
  { left := rnd k * 100
    animationDelay := rnd (k + 1) * 15
    animationDuration := 15 + rnd (k + 2) * 10 }

/-- `initParticleSystem`: `particleCount` calls of `createParticle`. -/
def initParticleSystem (rnd : ℕ → ℝ) (innerWidth : ℕ) : List Particle :=
  let particleCount := if innerWidth < 768 then 20 else 40
  (List.range particleCount).map fun i => createParticle rnd (3 * i)

/-- The `animationend` listener of a particle: `particle.remove()` followed
by `this.createParticle()`, which appends a fresh particle.  The particle
population is a list; the ended particle sits at index `i`. -/
def particleRespawn (ps : List Particle) (i : ℕ) (fresh : Particle) : List Particle :=
  ps.eraseIdx i ++ [fresh]

/-- States of the particle population reachable from `s` by repeatedly
firing `animationend` on some live particle. -/
inductive ParticleReach : List Particle → List Particle → Prop
  | refl (s : List Particle) : ParticleReach s s
  | step (s t : List Particle) (i : ℕ) (fresh : Particle) :
      ParticleReach s t → i < t.length → ParticleReach s (particleRespawn t i fresh)

/-- `createNeuralNetwork`: `nodeCount` nodes at random coordinates (three
draws per node: x, y and the unstored `animationDelay`), then the pairwise
connection pass. -/
noncomputable def createNeuralNetwork (rnd : ℕ → ℝ) (innerWidth : ℕ) :
    List Node × List Conn :=
  let nodeCount := if innerWidth < 768 then 12 else 20
  let nodes := (List.range nodeCount).map fun i =>
    { x := rnd (3 * i) * 100, y := rnd (3 * i + 1) * 100 }
  (nodes, createNeuralConnections nodes)

/-- The global style element `disableAnimations` appends to the document
head: a single rule for the universal selectors `*, *::before, *::after`
with `!important` declarations.  Durations are in milliseconds, as
rationals (`0.01ms`). -/
structure StyleOverride where
  appliesToAllElements : Bool
  important : Bool
  animationDurationMs : ℚ
  animationIterationCount : ℕ
  transitionDurationMs : ℚ

/-- `disableAnimations`: the override it installs. -/
def disableAnimations : StyleOverride :=
  { appliesToAllElements := true
    important := true
    animationDurationMs := 1 / 100
    animationIterationCount := 1
    transitionDurationMs := 1 / 100 }

/-- The controller's observable state.  The element lists model the
decorative elements attached inside `this.bgContainer` (shapes under
`.floating-shapes`, particles directly under the container, nodes and
connections under `.neural-network`); `overlayAttached` records whether
the container itself is attached to the page body, and `bgContainerSet`
whether the `this.bgContainer` reference has been assigned. -/
structure ControllerState where
  shapes : List Shape
  particles : List Particle
  neuralNodes : List Node
  connections : List Conn
  bgContainerSet : Bool
  overlayAttached : Bool
  animationFrameId : Option ℕ
  lastTime : ℤ
  styleOverride : Option StyleOverride

/-- `init` (run from the constructor): background + shapes, particle
system, neural network, animation loop, then the reduced-motion override.
The three element creators draw from independent copies of the random
stream for bookkeeping simplicity. -/
noncomputable def init (rndS rndP rndN : ℕ → ℝ) (innerWidth : ℕ)
    (isReducedMotion : Bool) : ControllerState :=
  let net := createNeuralNetwork rndN innerWidth
  { shapes := createFloatingShapes rndS innerWidth
    particles := initParticleSystem rndP innerWidth
    neuralNodes := net.1
    connections := net.2
    bgContainerSet := true
    overlayAttached := true
    animationFrameId := some 0
    lastTime := 0
    styleOverride := if isReducedMotion then some disableAnimations else none }

/-- One `requestAnimationFrame` callback of `startAnimationLoop`'s
`animate`: it only runs while a frame is scheduled (a cancelled id means
the callback never fires); it throttles `updateAnimations` (a no-op) to
~60fps by updating `lastTime` only when ≥ 16ms elapsed, then reschedules
itself under a fresh id. -/
def frameStep (s : ControllerState) (currentTime : ℤ) (nextId : ℕ) : ControllerState :=
  match s.animationFrameId with
  | none => s
  | some _ =>
    if currentTime - s.lastTime ≥ 16 then
      { s with lastTime := currentTime, animationFrameId := some nextId }
    else
      { s with animationFrameId := some nextId }

/-- `destroy`: cancel the pending frame if one is scheduled, then remove
`this.bgContainer` from the page if the reference was assigned (removing
the container detaches its whole decorative subtree). -/
def destroy (s : ControllerState) : ControllerState :=
  let s1 := if s.animationFrameId.isSome then { s with animationFrameId := none } else s
  if s1.bgContainerSet then { s1 with overlayAttached := false } else s1

/-- The number of decorative elements attached to the page: they all live
inside the overlay container, so none is attached once the overlay is
detached. -/
def attachedDecorativeCount (s : ControllerState) : ℕ :=
  if s.overlayAttached then
    s.shapes.length + s.particles.length + s.neuralNodes.length + s.connections.length
  else 0

/-- `handleResize`: empty the `.floating-shapes` container and re-run
`createFloatingShapes`, then empty the `.neural-network` container, reset
`this.neuralNodes` and re-run `createNeuralNetwork`, all at the current
viewport width.  Particles (direct children of the overlay container) are
not touched. -/
noncomputable def handleResize (rndS rndN : ℕ → ℝ) (innerWidth : ℕ)
    (s : ControllerState) : ControllerState :=
  let shapes := createFloatingShapes rndS innerWidth
  let net := createNeuralNetwork rndN innerWidth
  { s with shapes := shapes, neuralNodes := net.1, connections := net.2 }

/-- A page element, for the scroll-reveal and hover handlers: its id (DOM
identity) and class list. -/
structure Elem where
  id : ℕ
  classes : List String

/-- The `IntersectionObserver` callback body for one intersecting entry:
`entry.target.closest('.hero-cta, .grid')` either finds a grouping
container — modelled by `container = some siblings` where `siblings` is
the container's `.fade-in-element` descendants in document order — or
not (`none`).  The result is the list of `(element, setTimeout delay in
ms)` pairs scheduled to receive the `in-view` class; the `else` branch
adds the class synchronously (delay 0). -/
def intersectionReveals (target : Elem) (container : Option (List Elem)) :
    List (Elem × ℕ) :=
  match container with
  | some siblings => siblings.enum.map fun p => (p.2, p.1 * 200)
  | none => [(target, 0)]

/-- A `setTimeout` scheduled at `trigger` with delay `delayMs` fires at
`trigger + delayMs` at the earliest; the fire time in this model. -/
def revealTime (trigger delayMs : ℕ) : ℕ := trigger + delayMs

/-- The inline style properties the card handlers write. -/
structure CardStyle where
  transform : String
  boxShadow : String
  transition : String

/-- The style of a card no handler has touched: all inline properties
empty. -/
def emptyCardStyle : CardStyle := ⟨"", "", ""⟩

/-- A `.portal-card` element: class list and inline style. -/
structure Card where
  classes : List String
  style : CardStyle

/-- `onCardMouseMove` (bound to `mouseenter`): pick the card type from the
card-type class, pick the matching shadow colour (the initial value is the
cyan palette, overwritten for blue/amber), then set the raise, the glow
and the transition.  JS `String.replace` with a string pattern replaces
the first occurrence; each palette string contains `0.25` exactly once, so
Lean's replace-all agrees. -/
def onCardMouseMove (card : Card) : Card :=
  let cardType := if card.classes.contains "student-portal" then "cyan"
    else if card.classes.contains "examiner-portal" then "blue"
    else "amber"
  let shadowColor0 := "rgba(6, 182, 212, 0.25)"
  let shadowColor1 := if cardType = "blue" then "rgba(59, 130, 246, 0.25)" else shadowColor0
  let shadowColor := if cardType = "amber" then "rgba(245, 158, 11, 0.25)" else shadowColor1
  { card with style :=
    { transform := "translateY(-4px)"
      boxShadow := "0 8px 25px " ++ shadowColor ++ ", 0 0 20px " ++
        (shadowColor.replace "0.25" "0.1")
      transition := "all 0.3s cubic-bezier(0.25, 0.8, 0.25, 1)" } }

/-- `onCardMouseLeave`: clears the inline `transform` only. -/
def onCardMouseLeave (card : Card) : Card :=
  { card with style := { card.style with transform := "" } }

/-- The full glow string `onCardMouseMove` builds from a shadow colour. -/
def glowOf (shadowColor : String) : String :=
  "0 8px 25px " ++ shadowColor ++ ", 0 0 20px " ++ (shadowColor.replace "0.25" "0.1")

/-- A button's bounding client rect.  JS numbers modelled as rationals. -/
structure Rect where
  left : ℚ
  top : ℚ
  width : ℚ
  height : ℚ

/-- A ripple element: the geometry `createRippleEffect` writes into its
`cssText` (px units) and the `setTimeout` removal delay. -/
structure Ripple where
  width : ℚ
  height : ℚ
  left : ℚ
  top : ℚ
  removeAfterMs : ℕ

/-- `createRippleEffect`: size is the max of the bounding-box dimensions,
the top-left corner is the pointer position relative to the box shifted
back by half the size, removal is scheduled 600ms out. -/
def createRippleEffect (rect : Rect) (clientX clientY : ℚ) : Ripple :=
  let size := max rect.width rect.height
  let x := clientX - rect.left - size / 2
  let y := clientY - rect.top - size / 2
  { width := size, height := size, left := x, top := y, removeAfterMs := 600 }

/-- A button element: inline transform and its attached ripple children. -/
structure Button where
  transform : String
  ripples : List Ripple

/-- `onButtonHover` (bound to `mouseenter`): raise the button and append a
ripple. -/
def onButtonHover (b : Button) (rect : Rect) (clientX clientY : ℚ) : Button :=
  { b with transform := "translateY(-4px)"
           ripples := b.ripples ++ [createRippleEffect rect clientX clientY] }

/-- `onButtonLeave`: clears the inline `transform`. -/
def onButtonLeave (b : Button) : Button :=
  { b with transform := "" }

/-! ## Theorems -/

/-- `connFor` succeeds exactly below the distance threshold, and the
produced record is determined. -/
theorem connFor_eq_some {a b : Node} {i j : ℕ} {c : Conn} :
    connFor a b i j = some c ↔
      Real.sqrt ((a.x - b.x) ^ 2 + (a.y - b.y) ^ 2) < 30 ∧
      c = { src := i, dst := j, left := a.x, top := a.y,
            width := Real.sqrt ((a.x - b.x) ^ 2 + (a.y - b.y) ^ 2),
            angle := atan2 (b.y - a.y) (b.x - a.x) } := by
  simp only [connFor]
  split
  · simp_all [eq_comm]
  · simp_all

/-- Membership in the output of `createNeuralConnections`, characterised
by the generating index pair. -/
theorem mem_createNeuralConnections {nodes : List Node} {c : Conn} :
    c ∈ createNeuralConnections nodes ↔
      ∃ i j, i < j ∧ j < nodes.length ∧
        connFor (nodes.getD i default) (nodes.getD j default) i j = some c := by
  unfold createNeuralConnections
  simp only [List.mem_flatMap, List.mem_filterMap, List.mem_range, List.mem_range'_1]
  constructor
  · rintro ⟨i, hi, j, ⟨hj1, hj2⟩, hc⟩
    exact ⟨i, j, by omega, by omega, hc⟩
  · rintro ⟨i, j, hij, hj, hc⟩
    exact ⟨i, by omega, j, ⟨by omega, by omega⟩, hc⟩

/-- C1: for indices `i < j` into the node list, `createNeuralConnections`
emits a connection element for the unordered pair `(i, j)` iff the
Euclidean distance of the two nodes is below 30; any such element has
width equal to that distance and angle `atan2 (y2 - y1) (x2 - x1)`, taken
from the earlier node `i` towards the later node `j`. -/
theorem createNeuralConnections_pair_spec (nodes : List Node) (i j : ℕ)
    (hij : i < j) (hj : j < nodes.length) :
    ((∃ c ∈ createNeuralConnections nodes, c.src = i ∧ c.dst = j) ↔
        Real.sqrt (((nodes.getD i default).x - (nodes.getD j default).x) ^ 2 +
          ((nodes.getD i default).y - (nodes.getD j default).y) ^ 2) < 30) ∧
    ∀ c ∈ createNeuralConnections nodes, c.src = i → c.dst = j →
      c.width = Real.sqrt (((nodes.getD i default).x - (nodes.getD j default).x) ^ 2 +
          ((nodes.getD i default).y - (nodes.getD j default).y) ^ 2) ∧
      c.angle = atan2 ((nodes.getD j default).y - (nodes.getD i default).y)
          ((nodes.getD j default).x - (nodes.getD i default).x) := by
  constructor
  · constructor
    · rintro ⟨c, hc, hsrc, hdst⟩
      rw [mem_createNeuralConnections] at hc
      obtain ⟨i1, j1, hij1, hj1, hsome⟩ := hc
      obtain ⟨hd, rfl⟩ := connFor_eq_some.mp hsome
      simp only [] at hsrc hdst
      subst hsrc; subst hdst
      exact hd
    · intro hd
      exact ⟨_, mem_createNeuralConnections.mpr
        ⟨i, j, hij, hj, connFor_eq_some.mpr ⟨hd, rfl⟩⟩, rfl, rfl⟩
  · intro c hc hsrc hdst
    rw [mem_createNeuralConnections] at hc
    obtain ⟨i1, j1, hij1, hj1, hsome⟩ := hc
    obtain ⟨hd, rfl⟩ := connFor_eq_some.mp hsome
    simp only [] at hsrc hdst
    subst hsrc; subst hdst
    exact ⟨rfl, rfl⟩

/-- Two concrete nodes at distance 5. -/
def demoNodes : List Node := [⟨0, 0⟩, ⟨3, 4⟩]

/-- Witness for `createNeuralConnections_pair_spec` at the node pair
`(0, 0)`–`(3, 4)`: distance 5 < 30, so the connection exists. -/
theorem createNeuralConnections_pair_spec_witness :
    (0 : ℕ) < 1 ∧ 1 < demoNodes.length ∧
    ∃ c ∈ createNeuralConnections demoNodes, c.src = 0 ∧ c.dst = 1 := by
  have hlen : 1 < demoNodes.length := by simp [demoNodes]
  refine ⟨Nat.zero_lt_one, hlen, ?_⟩
  have h := (createNeuralConnections_pair_spec demoNodes 0 1 Nat.zero_lt_one hlen).1
  rw [h]
  have h0 : demoNodes.getD 0 default = (⟨0, 0⟩ : Node) := by simp [demoNodes]
  have h1 : demoNodes.getD 1 default = (⟨3, 4⟩ : Node) := by simp [demoNodes]
  rw [h0, h1]
  rw [Real.sqrt_lt' (by norm_num : (0:ℝ) < 30)]
  norm_num

/-- C2: the element counts created at initialization are the small
constants below viewport width 768 and the large constants otherwise:
shapes 8 vs 15, particles 20 vs 40, neural nodes 12 vs 20. -/
theorem init_element_counts (rndS rndP rndN : ℕ → ℝ) (innerWidth : ℕ)
    (isReducedMotion : Bool) :
    (init rndS rndP rndN innerWidth isReducedMotion).shapes.length =
      (if innerWidth < 768 then 8 else 15) ∧
    (init rndS rndP rndN innerWidth isReducedMotion).particles.length =
      (if innerWidth < 768 then 20 else 40) ∧
    (init rndS rndP rndN innerWidth isReducedMotion).neuralNodes.length =
      (if innerWidth < 768 then 12 else 20) := by
  refine ⟨?_, ?_, ?_⟩ <;>
    simp [init, createFloatingShapes, initParticleSystem, createNeuralNetwork]

/-- C3: each `animationend` step removes the ended particle and spawns
exactly one replacement, so the particle population size is invariant
along every reachable state. -/
theorem particleReach_length_invariant (s t : List Particle)
    (h : ParticleReach s t) : t.length = s.length := by
  induction h with
  | refl => rfl
  | step t i fresh hreach hi ih =>
    simp only [particleRespawn, List.length_append, List.length_eraseIdx,
      List.length_cons, List.length_nil]
    rw [if_pos hi]
    omega

/-- A concrete particle for the C3 witness. -/
def demoParticle : Particle := ⟨0, 0, 15⟩

/-- Witness for `particleReach_length_invariant`: one respawn step on a
one-particle population keeps the population size at 1. -/
theorem particleReach_length_invariant_witness :
    ParticleReach [demoParticle] (particleRespawn [demoParticle] 0 demoParticle) ∧
    (particleRespawn [demoParticle] 0 demoParticle).length = [demoParticle].length := by
  have hr : ParticleReach [demoParticle] (particleRespawn [demoParticle] 0 demoParticle) :=
    ParticleReach.step _ _ 0 demoParticle (ParticleReach.refl _) (by simp)
  exact ⟨hr, particleReach_length_invariant _ _ hr⟩

/-- C4: `handleResize` replaces the shape and node/connection sets with
freshly generated ones whose counts match the current viewport bucket,
and leaves the particle list untouched. -/
theorem handleResize_spec (rndS rndN : ℕ → ℝ) (innerWidth : ℕ)
    (s : ControllerState) :
    (handleResize rndS rndN innerWidth s).shapes = createFloatingShapes rndS innerWidth ∧
    (handleResize rndS rndN innerWidth s).shapes.length =
      (if innerWidth < 768 then 8 else 15) ∧
    (handleResize rndS rndN innerWidth s).neuralNodes =
      (createNeuralNetwork rndN innerWidth).1 ∧
    (handleResize rndS rndN innerWidth s).neuralNodes.length =
      (if innerWidth < 768 then 12 else 20) ∧
    (handleResize rndS rndN innerWidth s).connections =
      (createNeuralNetwork rndN innerWidth).2 ∧
    (handleResize rndS rndN innerWidth s).particles = s.particles := by
  refine ⟨rfl, ?_, rfl, ?_, rfl, rfl⟩ <;>
    simp [handleResize, createFloatingShapes, createNeuralNetwork]

/-- C5: inside a recognized grouping container, the `i`-th fade-in sibling
(in document order) is scheduled with delay exactly `i * 200` ms, so its
reveal fires no earlier than `trigger + i * 200`; outside any recognized
container, the target itself is revealed immediately (delay 0). -/
theorem intersectionReveals_stagger (target : Elem) (siblings : List Elem)
    (i trigger : ℕ) (h : i < siblings.length) :
    (intersectionReveals target (some siblings)).getD i (target, 0) =
      (siblings.getD i target, i * 200) ∧
    trigger + i * 200 ≤ revealTime trigger
      ((intersectionReveals target (some siblings)).getD i (target, 0)).2 ∧
    intersectionReveals target none = [(target, 0)] := by
  have hlen : i < (intersectionReveals target (some siblings)).length := by
    simp [intersectionReveals, h]
  have h1 : (intersectionReveals target (some siblings)).getD i (target, 0) =
      (siblings.getD i target, i * 200) := by
    rw [List.getD_eq_getElem _ _ hlen, List.getD_eq_getElem _ _ h]
    simp [intersectionReveals]
  exact ⟨h1, by rw [h1]; exact le_refl _, rfl⟩

/-- Concrete fade-in siblings for the C5 witness. -/
def demoSiblings : List Elem := [⟨1, ["fade-in-element"]⟩, ⟨2, ["fade-in-element"]⟩]

/-- Witness for `intersectionReveals_stagger`: with two siblings, the
second (index 1) is scheduled at delay 200 ms. -/
theorem intersectionReveals_stagger_witness :
    1 < demoSiblings.length ∧
    (intersectionReveals ⟨0, []⟩ (some demoSiblings)).getD 1 (⟨0, []⟩, 0) =
      (demoSiblings.getD 1 ⟨0, []⟩, 1 * 200) := by
  have h : 1 < demoSiblings.length := by simp [demoSiblings]
  exact ⟨h, (intersectionReveals_stagger ⟨0, []⟩ demoSiblings 1 0 h).1⟩

/-- The glow `onCardMouseMove` writes, as a function of the card-type
class lookups. -/
theorem onCardMouseMove_boxShadow (card : Card) :
    (onCardMouseMove card).style.boxShadow =
      glowOf (if card.classes.contains "student-portal" then "rgba(6, 182, 212, 0.25)"
        else if card.classes.contains "examiner-portal" then "rgba(59, 130, 246, 0.25)"
        else "rgba(245, 158, 11, 0.25)") := by
  cases hc : card.classes.contains "student-portal" <;>
    cases he : card.classes.contains "examiner-portal" <;>
      simp only [onCardMouseMove, glowOf, hc, he] <;> rfl

/-- C6 counterexample: after a hover followed by a pointer-leave on a
card that started with an empty inline style, the inline style is not
back to its pre-hover value (the transition — and the glow — survive the
leave), so the leave does not undo the hover's inline style effects. -/
theorem onCardMouseLeave_not_full_reset :
    (onCardMouseLeave (onCardMouseMove ⟨[], emptyCardStyle⟩)).style ≠ emptyCardStyle := by
  intro h
  have h2 := congrArg CardStyle.transition h
  exact absurd h2 (by decide)

/-- C6 amended: pointer-enter raises the card and applies one of the three
palette glows together with the fixed transition; pointer-leave resets
only the raise (clears `transform`) and leaves the glow and the
transition in place. -/
theorem onCardHover_effects (card : Card) :
    (onCardMouseMove card).style.transform = "translateY(-4px)" ∧
    (onCardMouseMove card).style.transition =
      "all 0.3s cubic-bezier(0.25, 0.8, 0.25, 1)" ∧
    ((onCardMouseMove card).style.boxShadow = glowOf "rgba(6, 182, 212, 0.25)" ∨
      (onCardMouseMove card).style.boxShadow = glowOf "rgba(59, 130, 246, 0.25)" ∨
      (onCardMouseMove card).style.boxShadow = glowOf "rgba(245, 158, 11, 0.25)") ∧
    (onCardMouseLeave (onCardMouseMove card)).style.transform = "" ∧
    (onCardMouseLeave (onCardMouseMove card)).style.boxShadow =
      (onCardMouseMove card).style.boxShadow ∧
    (onCardMouseLeave (onCardMouseMove card)).style.transition =
      (onCardMouseMove card).style.transition := by
  refine ⟨rfl, rfl, ?_, rfl, rfl, rfl⟩
  rw [onCardMouseMove_boxShadow card]
  cases hc : card.classes.contains "student-portal"
  · cases he : card.classes.contains "examiner-portal"
    · right; right; simp
    · right; left; simp
  · left; simp

/-- C7: with a reduced-motion preference at initialization, the global
override is installed: universal selector, `!important`, and both the
animation and the transition duration collapsed to at most 0.01 ms. -/
theorem init_reduced_motion_override (rndS rndP rndN : ℕ → ℝ) (innerWidth : ℕ)
    (isReducedMotion : Bool) (h : isReducedMotion = true) :
    (init rndS rndP rndN innerWidth isReducedMotion).styleOverride =
      some disableAnimations ∧
    disableAnimations.appliesToAllElements = true ∧
    disableAnimations.important = true ∧
    disableAnimations.animationDurationMs ≤ 1 / 100 ∧
    disableAnimations.transitionDurationMs ≤ 1 / 100 := by
  subst h
  exact ⟨rfl, rfl, rfl, le_refl _, le_refl _⟩

/-- Witness for `init_reduced_motion_override` at a concrete
initialization with reduced motion on. -/
theorem init_reduced_motion_override_witness :
    (true = true) ∧
    (init (fun _ => 0) (fun _ => 0) (fun _ => 0) 1024 true).styleOverride =
      some disableAnimations :=
  ⟨rfl, (init_reduced_motion_override (fun _ => 0) (fun _ => 0) (fun _ => 0)
    1024 true rfl).1⟩

/-- After `destroy` no frame is scheduled, whatever the state was. -/
theorem destroy_animationFrameId (s : ControllerState) :
    (destroy s).animationFrameId = none := by
  unfold destroy
  by_cases h : s.animationFrameId.isSome
  · simp only [h, if_true]
    split <;> rfl
  · have hn : s.animationFrameId = none := Option.not_isSome_iff_eq_none.mp h
    simp only [h, Bool.false_eq_true, if_false]
    split <;> simp [hn]

/-- A state with no scheduled frame is untouched by a frame callback. -/
theorem frameStep_of_none (s : ControllerState) (h : s.animationFrameId = none)
    (currentTime : ℤ) (nextId : ℕ) : frameStep s currentTime nextId = s := by
  unfold frameStep
  rw [h]

/-- C8: `destroy` on an initialized controller detaches the overlay (so
no decorative element stays attached) and cancels the frame loop, after
which every frame callback leaves the state unchanged. -/
theorem destroy_halts (rndS rndP rndN : ℕ → ℝ) (innerWidth : ℕ)
    (isReducedMotion : Bool) :
    (destroy (init rndS rndP rndN innerWidth isReducedMotion)).overlayAttached = false ∧
    attachedDecorativeCount (destroy (init rndS rndP rndN innerWidth isReducedMotion)) = 0 ∧
    (destroy (init rndS rndP rndN innerWidth isReducedMotion)).animationFrameId = none ∧
    ∀ (currentTime : ℤ) (nextId : ℕ),
      frameStep (destroy (init rndS rndP rndN innerWidth isReducedMotion))
          currentTime nextId =
        destroy (init rndS rndP rndN innerWidth isReducedMotion) := by
  have hov : (destroy (init rndS rndP rndN innerWidth isReducedMotion)).overlayAttached
      = false := rfl
  refine ⟨hov, ?_, destroy_animationFrameId _, fun c n =>
    frameStep_of_none _ (destroy_animationFrameId _) c n⟩
  simp [attachedDecorativeCount, hov]

/-- C9: a button pointer-enter raises the button and spawns a ripple
whose width and height are the max of the bounding-box dimensions, whose
square is centered on the pointer position relative to the button, and
which is scheduled for removal 600 ms after creation; pointer-leave
resets the raise. -/
theorem onButtonHover_ripple_spec (b : Button) (rect : Rect)
    (clientX clientY : ℚ) :
    (onButtonHover b rect clientX clientY).transform = "translateY(-4px)" ∧
    (onButtonHover b rect clientX clientY).ripples =
      b.ripples ++ [createRippleEffect rect clientX clientY] ∧
    (createRippleEffect rect clientX clientY).width = max rect.width rect.height ∧
    (createRippleEffect rect clientX clientY).height = max rect.width rect.height ∧
    (createRippleEffect rect clientX clientY).left +
      (createRippleEffect rect clientX clientY).width / 2 = clientX - rect.left ∧
    (createRippleEffect rect clientX clientY).top +
      (createRippleEffect rect clientX clientY).height / 2 = clientY - rect.top ∧
    (createRippleEffect rect clientX clientY).removeAfterMs = 600 ∧
    (onButtonLeave (onButtonHover b rect clientX clientY)).transform = "" := by
  refine ⟨rfl, rfl, rfl, rfl, ?_, ?_, rfl, rfl⟩ <;> simp [createRippleEffect]

/-- C10: the palette selection is total over card classes: the
student-portal class selects the cyan glow, otherwise the examiner-portal
class selects the blue glow, otherwise the amber glow is the default. -/
theorem onCardMouseMove_palette_total (card : Card) :
    (card.classes.contains "student-portal" = true →
      (onCardMouseMove card).style.boxShadow = glowOf "rgba(6, 182, 212, 0.25)") ∧
    (card.classes.contains "student-portal" = false →
      card.classes.contains "examiner-portal" = true →
      (onCardMouseMove card).style.boxShadow = glowOf "rgba(59, 130, 246, 0.25)") ∧
    (card.classes.contains "student-portal" = false →
      card.classes.contains "examiner-portal" = false →
      (onCardMouseMove card).style.boxShadow = glowOf "rgba(245, 158, 11, 0.25)") := by
  refine ⟨fun h1 => ?_, fun h1 h2 => ?_, fun h1 h2 => ?_⟩
  · rw [onCardMouseMove_boxShadow card, if_pos h1]
  · rw [onCardMouseMove_boxShadow card, if_neg (by rw [h1]; decide), if_pos h2]
  · rw [onCardMouseMove_boxShadow card, if_neg (by rw [h1]; decide),
      if_neg (by rw [h2]; decide)]

/-- Witness for `onCardMouseMove_palette_total`: a card with neither
recognized card-type class gets the amber (default) glow. -/
theorem onCardMouseMove_palette_total_witness :
    ((["portal-card"] : List String).contains "student-portal" = false) ∧
    ((["portal-card"] : List String).contains "examiner-portal" = false) ∧
    (onCardMouseMove ⟨["portal-card"], emptyCardStyle⟩).style.boxShadow =
      glowOf "rgba(245, 158, 11, 0.25)" := by
  refine ⟨by decide, by decide, ?_⟩
  exact (onCardMouseMove_palette_total ⟨["portal-card"], emptyCardStyle⟩).2.2
    (by decide) (by decide)

end FA
